import Mathlib

/-!
Verification of the reservation lifecycle and scheduling engine of the
Reserva-Canchas repository, as a shallow embedding of
`app/services/reserva_service.py`, `app/services/tarifario_service.py`,
`app/repository/tarifario_repository.py`, `app/services/disponibilidad_service.py`
and `app/domain/reserva_fsm.py`.

Modelling conventions:
* times of day are minutes since midnight (`Int`), exactly the value computed by
  `_hora_a_minutos`; zero-padded `HH:MM` strings compare in the same order as
  their minute values, so lexicographic string comparisons in the source become
  `≤`/`<` on minutes here;
* dates are day indices (`Nat`); `weekday(fecha) = fecha % 7`, a faithful model
  of a calendar in which the weekday cycles every seven days;
* a global instant is `fecha * 1440 + hora` minutes; the single wall clock of
  the deployment is an explicit parameter `now : Int`;
* the SQL store is a `Store` record of lists; `nextId` models primary-key
  generation; updates keyed on the primary key replace the matching row;
* monetary amounts are `ℚ`;
* `HTTPException` becomes the `Err` inductive (with its HTTP status); every
  operation returns `Except Err α × Store`, the second component being the
  committed store (unchanged on every error path, mirroring rollback);
* the stored ISO text of `vence_hold` is modelled by `VenceHold`: `valida t`
  for a string that `datetime.fromisoformat` parses to instant `t`, `invalida`
  for an unparseable string;
* the module-level 5-minute TTL tariff cache is elided: the embedding gives the
  cold-cache behaviour of `resolver_precio`.
-/

deriving instance DecidableEq for Except

inductive VenceHold where
  | valida (t : Int)
  | invalida
deriving DecidableEq, Repr

/-- Row of the `reservas` table: exactly the columns `app/models/reserva.py`
maps (those the lifecycle touches). The service code also mentions
`confirm_idempotencia`, `cancel_idempotencia`, `pago_capturado`,
`reprogramada_desde` and `reprogramada_a`, but the model maps none of them, so
they are not part of the persisted row: assigning one of them only sets a
transient instance attribute that the commit discards, and reading one of them
on a loaded row raises `AttributeError` (nothing in the repository ever sets
`pago_capturado` or `reprogramada_a` before reading them). -/
structure Reserva where
  id : Nat
  sede_id : Nat
  cancha_id : Nat
  usuario_id : Option Nat
  fecha : Nat
  hora_inicio : Int
  hora_fin : Int
  estado : String
  vence_hold : Option VenceHold
  clave_idempotencia : Option String
  total : Option ℚ
  moneda : Option String
  activo : Nat
deriving DecidableEq, Repr

/-- Row of the `sedes` table. `horario_apertura` is the parse of
`horario_apertura_json`: `none` for invalid JSON, otherwise the list of opening
windows (in minutes) per weekday 0..6; `zona_valida` records whether
`ZoneInfo(zona_horaria)` resolves. -/
structure Sede where
  id : Nat
  zona_valida : Bool
  horario_apertura : Option (List (List (Int × Int)))
  minutos_buffer : Int
  activo : Nat
deriving DecidableEq, Repr

/-- Row of the `canchas` table. -/
structure Cancha where
  id : Nat
  sede_id : Nat
  estado : String
  activo : Nat
deriving DecidableEq, Repr

/-- Row of the `tarifario` table. -/
structure Tarifario where
  id : Nat
  sede_id : Nat
  cancha_id : Option Nat
  dia_semana : Nat
  hora_inicio : Int
  hora_fin : Int
  precio_por_bloque : ℚ
  moneda : String
  activo : Nat
deriving DecidableEq, Repr

/-- Row of the reservation history table (`ReservaHistorial`). -/
structure ReservaHistorial where
  reserva_id : Nat
  estado_anterior : String
  estado_nuevo : String
  usuario_id : Nat
  comentario : Option String
deriving DecidableEq, Repr

/-- The authenticated principal supplied by the excluded auth layer. -/
structure Usuario where
  usuario_id : Nat
  rol : String
deriving DecidableEq, Repr

/-- The transactional store. -/
structure Store where
  reservas : List Reserva
  sedes : List Sede
  canchas : List Cancha
  tarifas : List Tarifario
  historial : List ReservaHistorial
  nextId : Nat
deriving DecidableEq, Repr

/-- The deployment configuration from `app/config/settings.py`. -/
structure Settings where
  hold_ttl_minutes : Int
  require_payment_capture : Bool
  cancel_full_refund_hours : ℚ
  cancel_partial_percentage : ℚ
deriving DecidableEq, Repr

/-- The error taxonomy of the embedded services (each `HTTPException` detail code). -/
inductive Err where
  | sedeNoEncontrada
  | canchaNoEncontrada
  | reservaNoEncontrada
  | canchaSedeMismatch
  | canchaNoReservable
  | zonaHorariaInvalida
  | horarioInvalido
  | fueraDeApertura
  | reservaSolapada
  | sinTarifa
  | reservaInvalida
  | forbidden
  | holdExpirado
  | pagoRequerido
  | noCancelable
  | noReprogramable
  | transicionInvalida
  | internalError
deriving DecidableEq, Repr

/-- HTTP status attached to each error in the source. -/
def Err.statusCode : Err → Nat
  | .sedeNoEncontrada => 404
  | .canchaNoEncontrada => 404
  | .reservaNoEncontrada => 404
  | .canchaSedeMismatch => 400
  | .canchaNoReservable => 409
  | .zonaHorariaInvalida => 500
  | .horarioInvalido => 400
  | .fueraDeApertura => 400
  | .reservaSolapada => 409
  | .sinTarifa => 404
  | .reservaInvalida => 409
  | .forbidden => 403
  | .holdExpirado => 410
  | .pagoRequerido => 402
  | .noCancelable => 409
  | .noReprogramable => 409
  | .transicionInvalida => 409
  | .internalError => 500

/-- Detail code string attached to each error in the source. -/
def Err.codigo : Err → String
  | .sedeNoEncontrada => "SEDE_NO_ENCONTRADA"
  | .canchaNoEncontrada => "CANCHA_NO_ENCONTRADA"
  | .reservaNoEncontrada => "RESERVA_NO_ENCONTRADA"
  | .canchaSedeMismatch => "CANCHA_SEDE_MISMATCH"
  | .canchaNoReservable => "CANCHA_NO_RESERVABLE"
  | .zonaHorariaInvalida => "ZONA_HORARIA_INVALIDA"
  | .horarioInvalido => "HORARIO_INVALIDO"
  | .fueraDeApertura => "FUERA_DE_APERTURA"
  | .reservaSolapada => "RESERVA_SOLAPADA"
  | .sinTarifa => "SIN_TARIFA"
  | .reservaInvalida => "RESERVA_INVALIDA"
  | .forbidden => "FORBIDDEN"
  | .holdExpirado => "HOLD_EXPIRADO"
  | .pagoRequerido => "PAGO_REQUERIDO"
  | .noCancelable => "NO_CANCELABLE"
  | .noReprogramable => "NO_REPROGRAMABLE"
  | .transicionInvalida => "TRANSICION_INVALIDA"
  | .internalError => "ERROR_INTERNO"

/-- Global instant (minutes) of a local date plus time of day. -/
def instante (fecha : Nat) (hora : Int) : Int :=
  (fecha : Int) * 1440 + hora

/-- The states `ReservaService.ESTADOS_ACTIVOS = ("hold", "pending", "confirmed")`. -/
def estadoActivo (e : String) : Bool :=
  decide (e = "hold") || decide (e = "pending") || decide (e = "confirmed")

/-- A reservation counted by the overlap and availability queries:
state in `ESTADOS_ACTIVOS` and `activo == 1`. -/
def reservaActiva (r : Reserva) : Bool :=
  estadoActivo r.estado && decide (r.activo = 1)

/-- `db.query(Reserva).filter(Reserva.id == reserva_id).first()`. -/
def findReserva (s : Store) (rid : Nat) : Option Reserva :=
  s.reservas.find? (fun r => decide (r.id = rid))

/-- `ReservaService._obtener_sede`: lookup without an `activo` filter. -/
def findSede (s : Store) (sid : Nat) : Option Sede :=
  s.sedes.find? (fun x => decide (x.id = sid))

/-- `TarifarioService._obtener_sede`: lookup filtered on `activo == 1`. -/
def findSedeActiva (s : Store) (sid : Nat) : Option Sede :=
  s.sedes.find? (fun x => decide (x.id = sid) && decide (x.activo = 1))

/-- `ReservaService._obtener_cancha`: lookup without an `activo` filter. -/
def findCancha (s : Store) (cid : Nat) : Option Cancha :=
  s.canchas.find? (fun c => decide (c.id = cid))

/-- `TarifarioService._obtener_cancha`: lookup filtered on `activo == 1`. -/
def findCanchaActiva (s : Store) (cid : Nat) : Option Cancha :=
  s.canchas.find? (fun c => decide (c.id = cid) && decide (c.activo = 1))

/-- Update of the row whose primary key is `rid` (ids are unique in the table). -/
def Store.updateReserva (s : Store) (rid : Nat) (f : Reserva → Reserva) : Store :=
  { s with reservas := s.reservas.map (fun r => if r.id = rid then f r else r) }

/-- `ReservaService._buscar_por_clave`. -/
def _buscar_por_clave (s : Store) (clave : String) : Option Reserva :=
  if clave = "" then none
  else s.reservas.find? (fun r => decide (r.clave_idempotencia = some clave))

/-- `ReservaService._validar_en_horario`: the request must be contained in some
opening window for that weekday; missing day or empty windows means closed. -/
def _validar_en_horario (sede : Sede) (hora_inicio hora_fin : Int) (dia_semana : Nat) :
    Except Err Unit :=
  match sede.horario_apertura with
  | none => .error .horarioInvalido
  | some dias =>
    let franjas := dias.getD dia_semana []
    if franjas.isEmpty then .error .fueraDeApertura
    else if franjas.any (fun f => decide (f.1 ≤ hora_inicio) && decide (hora_fin ≤ f.2)) then .ok ()
    else .error .fueraDeApertura

/-- The interval test at the heart of `_validar_solape`: the requested raw range
against an existing reservation extended by the buffer on both sides. -/
def hay_solape (buffer reqInicio reqFin otroInicio otroFin : Int) : Bool :=
  decide (reqInicio < otroFin + buffer) && decide (reqFin > otroInicio - buffer)

/-- `ReservaService._validar_solape`: scan the active reservations of the court
and date, skip `exclude_reserva_id`, and fail on the first buffered overlap. -/
def _validar_solape (s : Store) (cancha_id : Nat) (fecha : Nat)
    (hora_inicio hora_fin : Int) (buffer_minutos : Int) (exclude_reserva_id : Option Nat) :
    Except Err Unit :=
  let reservas := s.reservas.filter (fun r =>
    decide (r.cancha_id = cancha_id) && decide (r.fecha = fecha) &&
    estadoActivo r.estado && decide (r.activo = 1))
  if reservas.any (fun r =>
      !(decide (exclude_reserva_id = some r.id)) &&
      hay_solape buffer_minutos hora_inicio hora_fin r.hora_inicio r.hora_fin)
  then .error .reservaSolapada
  else .ok ()

/-- `Reserva.usuario_id and usuario.rol == "cliente" and
Reserva.usuario_id != usuario.usuario_id`: the ownership guard of confirm and
reprogram. -/
def propietarioProhibido (r : Reserva) (u : Usuario) : Bool :=
  match r.usuario_id with
  | some uid => decide (u.rol = "cliente") && decide (uid ≠ u.usuario_id)
  | none => false

/-- Result of `TarifarioService.resolver_precio`. -/
structure TarifaResolverData where
  origen : String
  tarifa_id : Nat
  moneda : String
  precio_por_bloque : ℚ
deriving DecidableEq, Repr

/-- Court-level branch of `TarifarioRepository.obtener_tarifa_aplicable`: note
the source filters on `cancha_id`, weekday, containment of the start instant
and `activo`, but not on `sede_id`. -/
def buscarTarifaCancha (tarifas : List Tarifario) (cancha_id : Nat) (dia_semana : Nat)
    (hora : Int) : Option Tarifario :=
  tarifas.find? (fun t =>
    decide (t.cancha_id = some cancha_id) && decide (t.dia_semana = dia_semana) &&
    decide (t.hora_inicio ≤ hora) && decide (t.hora_fin > hora) && decide (t.activo = 1))

/-- Venue-level branch of `TarifarioRepository.obtener_tarifa_aplicable`. -/
def buscarTarifaSede (tarifas : List Tarifario) (sede_id : Nat) (dia_semana : Nat)
    (hora : Int) : Option Tarifario :=
  tarifas.find? (fun t =>
    decide (t.sede_id = sede_id) && decide (t.cancha_id = none) &&
    decide (t.dia_semana = dia_semana) &&
    decide (t.hora_inicio ≤ hora) && decide (t.hora_fin > hora) && decide (t.activo = 1))

/-- `TarifarioRepository.obtener_tarifa_aplicable`: court rule first, venue rule
as fallback; containment is tested only at the slot's start instant. -/
def obtener_tarifa_aplicable (tarifas : List Tarifario) (sede_id : Nat)
    (cancha_id : Option Nat) (dia_semana : Nat) (hora : Int) : Option Tarifario :=
  let tarifa_cancha := match cancha_id with
    | some cid => buscarTarifaCancha tarifas cid dia_semana hora
    | none => none
  match tarifa_cancha with
  | some t => some t
  | none => buscarTarifaSede tarifas sede_id dia_semana hora

/-- Tail of `TarifarioService.resolver_precio` after the entity lookups:
timezone check, range validation, rule lookup and result construction. -/
def resolverNucleo (s : Store) (sede : Sede) (fecha : Nat) (hora_inicio hora_fin : Int)
    (sede_id : Nat) (cancha_id : Option Nat) : Except Err TarifaResolverData :=
  if ¬ sede.zona_valida then .error .zonaHorariaInvalida
  else if hora_fin ≤ hora_inicio then .error .horarioInvalido
  else
    match obtener_tarifa_aplicable s.tarifas sede_id cancha_id (fecha % 7) hora_inicio with
    | none => .error .sinTarifa
    | some tarifa =>
      .ok { origen := if tarifa.cancha_id.isSome then "cancha" else "sede",
            tarifa_id := tarifa.id,
            moneda := tarifa.moneda,
            precio_por_bloque := tarifa.precio_por_bloque }

/-- `TarifarioService.resolver_precio` (cold cache): active venue lookup, court
lookup and membership check when a court is given, then `resolverNucleo`. -/
def resolver_precio (s : Store) (fecha : Nat) (hora_inicio hora_fin : Int)
    (sede_id : Nat) (cancha_id : Option Nat) : Except Err TarifaResolverData :=
  match findSedeActiva s sede_id with
  | none => .error .sedeNoEncontrada
  | some sede =>
    match cancha_id with
    | some cid =>
      (match findCanchaActiva s cid with
       | none => .error .canchaNoEncontrada
       | some cancha =>
         if ¬ (cancha.sede_id = sede.id) then .error .canchaSedeMismatch
         else resolverNucleo s sede fecha hora_inicio hora_fin sede_id cancha_id)
    | none => resolverNucleo s sede fecha hora_inicio hora_fin sede_id cancha_id

/-- Payload `ReservaHoldRequest` (schema: `hora_fin > hora_inicio`,
`clave_idempotencia` length ≥ 6). -/
structure ReservaHoldRequest where
  sede_id : Nat
  cancha_id : Nat
  fecha : Nat
  hora_inicio : Int
  hora_fin : Int
  clave_idempotencia : String
deriving DecidableEq, Repr

/-- Payload `ReservaConfirmRequest`. -/
structure ReservaConfirmRequest where
  clave_idempotencia : Option String
deriving DecidableEq, Repr

/-- Payload `ReservaCancelRequest`. -/
structure ReservaCancelRequest where
  motivo : String
  clave_idempotencia : Option String
deriving DecidableEq, Repr

/-- Payload `ReservaReprogramarRequest`. -/
structure ReservaReprogramarRequest where
  fecha : Nat
  hora_inicio : Int
  hora_fin : Int
  cancha_id : Option Nat
deriving DecidableEq, Repr

/-- Response `ReservaHoldData` (`inicio`/`fin` carried as date plus minutes). -/
structure ReservaHoldData where
  reserva_id : Nat
  estado : String
  sede_id : Nat
  cancha_id : Nat
  fecha : Nat
  hora_inicio : Int
  hora_fin : Int
  vence_hold : Option VenceHold
  total : ℚ
  moneda : String
deriving DecidableEq, Repr

/-- Response `ReservaConfirmData`. -/
structure ReservaConfirmData where
  reserva_id : Nat
  estado : String
  total : ℚ
  moneda : String
deriving DecidableEq, Repr

/-- Response `ReservaCancelData` with its refund directive flattened. -/
structure ReservaCancelData where
  reserva_id : Nat
  estado : String
  reembolso_monto : ℚ
  reembolso_moneda : String
  reembolso_tipo : String
deriving DecidableEq, Repr

/-- Response `ReservaReprogramarData` with `DiferenciaPrecio` flattened. -/
structure ReservaReprogramarData where
  reserva_original : Nat
  reserva_nueva : Nat
  diferencia_monto : ℚ
  diferencia_moneda : String
  diferencia_tipo : String
deriving DecidableEq, Repr

/-- Response `ReservaCleanData` of the hold sweeper. -/
structure ReservaCleanData where
  expiradas : Nat
  ejecutado_en : Int
deriving DecidableEq, Repr

/-- `ReservaService._respuesta`: re-reads the venue (404 if missing, 500 on a
bad timezone) and renders the reservation. -/
def _respuesta (s : Store) (r : Reserva) : Except Err ReservaHoldData :=
  match findSede s r.sede_id with
  | none => .error .sedeNoEncontrada
  | some sede =>
    if ¬ sede.zona_valida then .error .zonaHorariaInvalida
    else .ok { reserva_id := r.id, estado := r.estado, sede_id := r.sede_id,
               cancha_id := r.cancha_id, fecha := r.fecha,
               hora_inicio := r.hora_inicio, hora_fin := r.hora_fin,
               vence_hold := r.vence_hold, total := r.total.getD 0,
               moneda := r.moneda.getD "COP" }

/-- `ReservaService._respuesta_confirm`. -/
def _respuesta_confirm (r : Reserva) : ReservaConfirmData :=
  { reserva_id := r.id, estado := r.estado, total := r.total.getD 0,
    moneda := r.moneda.getD "COP" }

/-- `ReservaService._respuesta_cancel`. -/
def _respuesta_cancel (r : Reserva) (monto : ℚ) (tipo : String) : ReservaCancelData :=
  { reserva_id := r.id, estado := r.estado, reembolso_monto := monto,
    reembolso_moneda := r.moneda.getD "COP", reembolso_tipo := tipo }

/-- Does inserting a row with this idempotency key violate the uniqueness
constraint `idx_reserva_clave_idemp` (the `IntegrityError` of the source)? -/
def claveDuplicada (s : Store) (clave : Option String) : Bool :=
  match clave with
  | none => false
  | some c => s.reservas.any (fun r => decide (r.clave_idempotencia = some c))

/-- `ReservaService.crear_hold`: idempotency-key short-circuit, entity
validations, range/opening/overlap checks, tariff resolution, insert in state
`hold`, and the `IntegrityError` recovery that re-reads the existing row. -/
def crear_hold (cfg : Settings) (now : Int) (p : ReservaHoldRequest) (u : Usuario)
    (s : Store) : Except Err (ReservaHoldData × Bool) × Store :=
  match _buscar_por_clave s p.clave_idempotencia with
  | some existente =>
    (match _respuesta s existente with
     | .ok d => (.ok (d, false), s)
     | .error e => (.error e, s))
  | none =>
  match findSede s p.sede_id with
  | none => (.error .sedeNoEncontrada, s)
  | some sede =>
  match findCancha s p.cancha_id with
  | none => (.error .canchaNoEncontrada, s)
  | some cancha =>
  if ¬ (cancha.sede_id = sede.id) then (.error .canchaSedeMismatch, s)
  else if ¬ (cancha.estado = "activo" ∧ cancha.activo = 1) then (.error .canchaNoReservable, s)
  else if ¬ sede.zona_valida then (.error .zonaHorariaInvalida, s)
  else if p.hora_fin ≤ p.hora_inicio then (.error .horarioInvalido, s)
  else
  match _validar_en_horario sede p.hora_inicio p.hora_fin (p.fecha % 7) with
  | .error e => (.error e, s)
  | .ok _ =>
  match _validar_solape s cancha.id p.fecha p.hora_inicio p.hora_fin sede.minutos_buffer none with
  | .error e => (.error e, s)
  | .ok _ =>
  match resolver_precio s p.fecha p.hora_inicio p.hora_fin sede.id (some cancha.id) with
  | .error e => (.error e, s)
  | .ok tarifa =>
    let reserva : Reserva :=
      { id := s.nextId, sede_id := sede.id, cancha_id := cancha.id,
        usuario_id := some u.usuario_id, fecha := p.fecha,
        hora_inicio := p.hora_inicio, hora_fin := p.hora_fin, estado := "hold",
        vence_hold := some (.valida (now + cfg.hold_ttl_minutes)),
        clave_idempotencia := some p.clave_idempotencia,
        total := some tarifa.precio_por_bloque, moneda := some tarifa.moneda,
        activo := 1 }
    if claveDuplicada s reserva.clave_idempotencia then
      match _buscar_por_clave s p.clave_idempotencia with
      | some existente =>
        (match _respuesta s existente with
         | .ok d => (.ok (d, false), s)
         | .error e => (.error e, s))
      | none => (.error .internalError, s)
    else
      let s' : Store := { s with reservas := s.reservas ++ [reserva], nextId := s.nextId + 1 }
      (match _respuesta s' reserva with
       | .ok d => (.ok (d, true), s')
       | .error e => (.error e, s'))

/-- The row update committed by `confirmar_reserva`: only the state change.
The payload's key is written to `confirm_idempotencia`, which the model does
not map, so that write is a transient instance attribute the commit never
persists. -/
def aplicarConfirmacion (_p : ReservaConfirmRequest) (r : Reserva) : Reserva :=
  { r with estado := "confirmed" }

/-- `ReservaService.confirmar_reserva`. When `require_payment_capture` is
enabled the source evaluates `reserva.pago_capturado`, an attribute the model
does not map and nothing ever sets, so that branch raises `AttributeError`
(surfaced as an unhandled internal error); when disabled, the `and`
short-circuits and the attribute is never read. -/
def confirmar_reserva (cfg : Settings) (now : Int) (reserva_id : Nat)
    (p : ReservaConfirmRequest) (u : Usuario) (s : Store) :
    Except Err ReservaConfirmData × Store :=
  match findReserva s reserva_id with
  | none => (.error .reservaNoEncontrada, s)
  | some reserva =>
  if reserva.estado = "confirmed" then (.ok (_respuesta_confirm reserva), s)
  else if ¬ (reserva.estado = "hold" ∨ reserva.estado = "pending") then
    (.error .reservaInvalida, s)
  else if propietarioProhibido reserva u then (.error .forbidden, s)
  else
  match findSede s reserva.sede_id with
  | none => (.error .sedeNoEncontrada, s)
  | some sede =>
  if ¬ sede.zona_valida then (.error .zonaHorariaInvalida, s)
  else
    let continuar : Except Err ReservaConfirmData × Store :=
      if cfg.require_payment_capture then (.error .internalError, s)
      else
        match _validar_solape s reserva.cancha_id reserva.fecha reserva.hora_inicio
            reserva.hora_fin sede.minutos_buffer (some reserva.id) with
        | .error e => (.error e, s)
        | .ok _ =>
          (.ok (_respuesta_confirm (aplicarConfirmacion p reserva)),
           s.updateReserva reserva.id (aplicarConfirmacion p))
    match reserva.vence_hold with
    | some .invalida => (.error .internalError, s)
    | some (.valida t) => if t < now then (.error .holdExpirado, s) else continuar
    | none => continuar

/-- The row update committed by `cancelar_reserva`: only the state change.
The payload's key is written to `cancel_idempotencia`, which the model does
not map, so that write is a transient instance attribute the commit never
persists. -/
def aplicarCancelacion (_p : ReservaCancelRequest) (r : Reserva) : Reserva :=
  { r with estado := "cancelled" }

/-- `ReservaService.cancelar_reserva`: no-op on `cancelled`, refusal outside
`{confirmed, hold, pending}` or once the start has passed, then the refund
directive from the configured policy and the transition to `cancelled`. -/
def cancelar_reserva (cfg : Settings) (now : Int) (reserva_id : Nat)
    (p : ReservaCancelRequest) (_u : Usuario) (s : Store) :
    Except Err ReservaCancelData × Store :=
  match findReserva s reserva_id with
  | none => (.error .reservaNoEncontrada, s)
  | some reserva =>
  if reserva.estado = "cancelled" then (.ok (_respuesta_cancel reserva 0 "sin_reembolso"), s)
  else if ¬ (reserva.estado = "confirmed" ∨ reserva.estado = "hold" ∨ reserva.estado = "pending") then
    (.error .noCancelable, s)
  else
  match findSede s reserva.sede_id with
  | none => (.error .sedeNoEncontrada, s)
  | some sede =>
  if ¬ sede.zona_valida then (.error .zonaHorariaInvalida, s)
  else
    let inicio := instante reserva.fecha reserva.hora_inicio
    if inicio ≤ now then (.error .noCancelable, s)
    else
      let horas_restantes : ℚ := ((inicio - now : Int) : ℚ) / 60
      let monto : ℚ :=
        if horas_restantes ≥ cfg.cancel_full_refund_hours then reserva.total.getD 0
        else reserva.total.getD 0 * (cfg.cancel_partial_percentage / 100)
      let tipo : String :=
        if horas_restantes ≥ cfg.cancel_full_refund_hours then "total"
        else if monto > 0 then "parcial" else "sin_reembolso"
      (.ok (_respuesta_cancel (aplicarCancelacion p reserva) monto tipo),
       s.updateReserva reserva.id (aplicarCancelacion p))

/-- `ReservaService.reprogramar_reserva`. The validations run in source order;
the final transaction block first marks the original `reprogrammed`/inactive
and then constructs the new row, but building its keyword arguments evaluates
`original.pago_capturado` — an attribute `app/models/reserva.py` does not map
and that nothing in the repository ever sets — so every run that reaches the
block raises `AttributeError` there; the `except Exception` clause rolls the
transaction back (undoing the two writes to the original) and re-raises, so
the operation always returns an internal error with the store untouched and
the success path of the source (new linked row, bidirectional
`reprogramada_desde`/`reprogramada_a` links, which are not columns either) is
unreachable. The price-difference values computed just before the block are
consequently always discarded. -/
def reprogramar_reserva (now : Int) (reserva_id : Nat)
    (p : ReservaReprogramarRequest) (u : Usuario) (s : Store) :
    Except Err ReservaReprogramarData × Store :=
  match findReserva s reserva_id with
  | none => (.error .reservaNoEncontrada, s)
  | some original =>
  if ¬ (original.estado = "confirmed") then (.error .reservaInvalida, s)
  else if propietarioProhibido original u then (.error .forbidden, s)
  else
  match findSede s original.sede_id with
  | none => (.error .sedeNoEncontrada, s)
  | some sede =>
  if ¬ sede.zona_valida then (.error .zonaHorariaInvalida, s)
  else if instante original.fecha original.hora_inicio ≤ now then (.error .noReprogramable, s)
  else
  match findCancha s (p.cancha_id.getD original.cancha_id) with
  | none => (.error .canchaNoEncontrada, s)
  | some cancha =>
  if ¬ (cancha.sede_id = sede.id) then (.error .canchaSedeMismatch, s)
  else if ¬ (cancha.estado = "activo" ∧ cancha.activo = 1) then (.error .canchaNoReservable, s)
  else
  match _validar_en_horario sede p.hora_inicio p.hora_fin (p.fecha % 7) with
  | .error e => (.error e, s)
  | .ok _ =>
  match _validar_solape s cancha.id p.fecha p.hora_inicio p.hora_fin sede.minutos_buffer
      (some original.id) with
  | .error e => (.error e, s)
  | .ok _ =>
  match resolver_precio s p.fecha p.hora_inicio p.hora_fin sede.id (some cancha.id) with
  | .error e => (.error e, s)
  | .ok tarifa_nueva =>
    let _diferencia : ℚ := tarifa_nueva.precio_por_bloque - original.total.getD 0
    let _tipo_diferencia : String :=
      if _diferencia > 0 then "cargo_adicional"
      else if _diferencia < 0 then "reembolso_parcial"
      else "sin_cambio"
    (.error .internalError, s)

/-- The per-row test of `expirar_holds_vencidos`: state `hold`, `activo == 1`,
a `vence_hold` that parses, and that instant strictly in the past (a row whose
`vence_hold` does not parse is skipped by the `except ValueError: continue`). -/
def esHoldExpirable (now : Int) (r : Reserva) : Bool :=
  decide (r.estado = "hold") && decide (r.activo = 1) &&
    (match r.vence_hold with
     | some (.valida t) => decide (t < now)
     | some .invalida => false
     | none => false)

/-- The sweep of `expirar_holds_vencidos` over the reservation table, returning
the updated rows and how many were expired. -/
def expirarLista (now : Int) : List Reserva → List Reserva × Nat
  | [] => ([], 0)
  | r :: resto =>
    let siguiente := expirarLista now resto
    if esHoldExpirable now r then
      ({ r with estado := "expired", activo := 0 } :: siguiente.1, siguiente.2 + 1)
    else (r :: siguiente.1, siguiente.2)

/-- `ReservaService.expirar_holds_vencidos`. -/
def expirar_holds_vencidos (now : Int) (s : Store) : ReservaCleanData × Store :=
  let barrido := expirarLista now s.reservas
  ({ expiradas := barrido.2, ejecutado_en := now }, { s with reservas := barrido.1 })

/-- The states of `app/domain/reserva_fsm.py` (`EstadoReserva`); note the
terminal state is spelled `expirada` there. -/
inductive EstadoReserva where
  | hold
  | pending
  | confirmed
  | cancelled
  | no_show
  | expirada
deriving DecidableEq, Repr

/-- The `.value` string of each `EstadoReserva` member. -/
def EstadoReserva.value : EstadoReserva → String
  | .hold => "hold"
  | .pending => "pending"
  | .confirmed => "confirmed"
  | .cancelled => "cancelled"
  | .no_show => "no_show"
  | .expirada => "expirada"

/-- `EstadoReserva(estado)`: parse a stored state string into the enum, `none`
when the Python constructor would raise `ValueError`. -/
def EstadoReserva.fromString (e : String) : Option EstadoReserva :=
  if e = "hold" then some .hold
  else if e = "pending" then some .pending
  else if e = "confirmed" then some .confirmed
  else if e = "cancelled" then some .cancelled
  else if e = "no_show" then some .no_show
  else if e = "expirada" then some .expirada
  else none

/-- `ReservaFSM.TRANSICIONES_VALIDAS` of `app/domain/reserva_fsm.py`. -/
def ReservaFSM.TRANSICIONES_VALIDAS : EstadoReserva → List EstadoReserva
  | .hold => [.pending, .expirada]
  | .pending => [.confirmed]
  | .confirmed => [.cancelled, .no_show]
  | .cancelled => []
  | .no_show => []
  | .expirada => []

/-- `ReservaFSM.validar_transicion`. -/
def ReservaFSM.validar_transicion (estado_actual estado_nuevo : EstadoReserva) : Bool :=
  (ReservaFSM.TRANSICIONES_VALIDAS estado_actual).any (fun x => decide (x = estado_nuevo))

/-- Result of `ReservaEstadoService.transicionar_estado`. -/
structure TransicionData where
  reserva_id : Nat
  estado_anterior : String
  estado_actual : String
deriving DecidableEq, Repr

/-- `ReservaEstadoService.transicionar_estado`: FSM-validated transition that
commits the new state and appends one history entry. -/
def transicionar_estado (rid : Nat) (estado_nuevo : EstadoReserva) (usuario_id : Nat)
    (comentario : Option String) (s : Store) : Except Err TransicionData × Store :=
  match findReserva s rid with
  | none => (.error .reservaNoEncontrada, s)
  | some reserva =>
  match EstadoReserva.fromString reserva.estado with
  | none => (.error .internalError, s)
  | some estado_actual =>
  if ReservaFSM.validar_transicion estado_actual estado_nuevo then
    let s1 := s.updateReserva reserva.id (fun r => { r with estado := estado_nuevo.value })
    let entrada : ReservaHistorial :=
      { reserva_id := rid, estado_anterior := reserva.estado,
        estado_nuevo := estado_nuevo.value, usuario_id := usuario_id,
        comentario := comentario }
    (.ok { reserva_id := rid, estado_anterior := reserva.estado,
           estado_actual := estado_nuevo.value },
     { s1 with historial := s1.historial ++ [entrada] })
  else (.error .transicionInvalida, s)

/-- One slot of the availability response. -/
structure SlotDisponibilidad where
  hora_inicio : Int
  hora_fin : Int
  reservable : Bool
  motivo : Option String
deriving DecidableEq, Repr

/-- One entry of the occupied-interval timeline of `_generar_slots`. -/
structure RangoOcupado where
  inicio : Int
  fin : Int
  motivo : String
deriving DecidableEq, Repr

/-- `DisponibilidadService._obtener_reservas_activas` (the `ORDER BY
hora_inicio` is dropped: it can only influence which occupied range is found
first, that is, the `motivo` string, never `reservable`). -/
def _obtener_reservas_activas (s : Store) (cancha_id : Nat) (fecha : Nat) : List Reserva :=
  s.reservas.filter (fun r =>
    decide (r.cancha_id = cancha_id) && decide (r.fecha = fecha) &&
    estadoActivo r.estado && decide (r.activo = 1))

/-- The occupied interval of one reservation: buffer applied on both sides and
clamped to the opening window. The source's reason test
`inicio_mins <= inicio_mins < fin_mins` is the comparison chain
`(inicio_mins <= inicio_mins) and (inicio_mins < fin_mins)`, hence
`inicio_mins < fin_mins`. -/
def rangoOcupadoDe (apertura_mins cierre_mins minutos_buffer : Int) (r : Reserva) :
    RangoOcupado :=
  { inicio := max apertura_mins (r.hora_inicio - minutos_buffer),
    fin := min cierre_mins (r.hora_fin + minutos_buffer),
    motivo := if r.hora_inicio < r.hora_fin then "Reservado" else "Buffer" }

/-- The occupied-interval timeline of `_generar_slots`. -/
def rangosOcupados (apertura_mins cierre_mins minutos_buffer : Int)
    (reservas : List Reserva) : List RangoOcupado :=
  reservas.map (rangoOcupadoDe apertura_mins cierre_mins minutos_buffer)

/-- `DisponibilidadService._slot_esta_ocupado`: first occupied range with
`slot_inicio < rango.fin` and `slot_fin > rango.inicio`. -/
def _slot_esta_ocupado (slot_inicio slot_fin : Int) (rangos : List RangoOcupado) :
    Bool × Option String :=
  match rangos.find? (fun g => decide (slot_inicio < g.fin) && decide (slot_fin > g.inicio)) with
  | some g => (true, some g.motivo)
  | none => (false, none)

/-- The slot loop of `_generar_slots` (`while minuto_actual + duracion <=
cierre`). The source would not terminate on `duracion_slot = 0`; the schema
enforces `duracion_slot ≥ 15`, and the guard `0 < dur` makes the recursion
total. -/
def generarSlotsDesde (cierre_mins dur : Int) (rangos : List RangoOcupado)
    (minuto_actual : Int) : List SlotDisponibilidad :=
  if _h : 0 < dur ∧ minuto_actual + dur ≤ cierre_mins then
    let oc := _slot_esta_ocupado minuto_actual (minuto_actual + dur) rangos
    { hora_inicio := minuto_actual, hora_fin := minuto_actual + dur,
      reservable := !oc.1, motivo := if oc.1 then oc.2 else none } ::
      generarSlotsDesde cierre_mins dur rangos (minuto_actual + dur)
  else []
termination_by (cierre_mins - minuto_actual).toNat
decreasing_by
  omega

/-- `DisponibilidadService._generar_slots`, with the opening window already
split into its two minute bounds. -/
def _generar_slots (apertura_mins cierre_mins : Int) (reservas : List Reserva)
    (minutos_buffer duracion_slot : Int) : List SlotDisponibilidad :=
  generarSlotsDesde cierre_mins duracion_slot
    (rangosOcupados apertura_mins cierre_mins minutos_buffer reservas) apertura_mins

/-- The write actually performed on each row by one sweeper pass. -/
def expirarReserva (now : Int) (r : Reserva) : Reserva :=
  if esHoldExpirable now r then { r with estado := "expired", activo := 0 } else r

/-- One produced slot of the availability loop, as a function of its start. -/
def slotEn (dur : Int) (rangos : List RangoOcupado) (inicio : Int) : SlotDisponibilidad :=
  let oc := _slot_esta_ocupado inicio (inicio + dur) rangos
  { hora_inicio := inicio, hora_fin := inicio + dur, reservable := !oc.1,
    motivo := if oc.1 then oc.2 else none }

/-- The no-double-booking invariant on a reservation table, for a buffer
assignment `buf : cancha id → minutos_buffer`: no two distinct reservations of
the same court and date, both in state `{hold, pending, confirmed}` with
`activo = 1`, have the raw range of one intersecting the buffer-extended range
of the other. -/
abbrev sinDobleLista (buf : Nat → Int) (l : List Reserva) : Prop :=
  ∀ r1 ∈ l, ∀ r2 ∈ l, r1.id ≠ r2.id → r1.cancha_id = r2.cancha_id →
    r1.fecha = r2.fecha → reservaActiva r1 = true → reservaActiva r2 = true →
    hay_solape (buf r1.cancha_id) r1.hora_inicio r1.hora_fin r2.hora_inicio r2.hora_fin = false

/-- The no-double-booking invariant on a store. -/
abbrev SinDobleReserva (buf : Nat → Int) (s : Store) : Prop :=
  sinDobleLista buf s.reservas

/-- Well-formedness: the primary-key generator is ahead of every stored row. -/
abbrev IdsFrescos (s : Store) : Prop :=
  ∀ r ∈ s.reservas, r.id < s.nextId

/-- Well-formedness: the primary key determines the row (the `id` column is
`unique`). -/
abbrev IdsUnicos (s : Store) : Prop :=
  ∀ r1 ∈ s.reservas, ∀ r2 ∈ s.reservas, r1.id = r2.id → r1 = r2

/-- Coherence of a buffer assignment with the store: the venue owning each
court carries `buf` of that court as its `minutos_buffer`. -/
abbrev BufCoherente (buf : Nat → Int) (s : Store) : Prop :=
  ∀ c ∈ s.canchas, ∀ x ∈ s.sedes, x.id = c.sede_id → x.minutos_buffer = buf c.id

/-- Deployment defaults (`hold_ttl_minutes=10`, threshold 24h, percentage 50). -/
def cfg0 : Settings :=
  { hold_ttl_minutes := 10, require_payment_capture := false,
    cancel_full_refund_hours := 24, cancel_partial_percentage := 50 }

/-- A venue open 08:00-20:00 on weekday 0, buffer 10 minutes. -/
def sede1 : Sede :=
  { id := 1, zona_valida := true, horario_apertura := some [[(480, 1200)]],
    minutos_buffer := 10, activo := 1 }

/-- An active bookable court of `sede1`. -/
def cancha1 : Cancha :=
  { id := 1, sede_id := 1, estado := "activo", activo := 1 }

/-- A venue-wide tariff rule for weekday 0, 08:00-20:00. -/
def tarifa1 : Tarifario :=
  { id := 1, sede_id := 1, cancha_id := none, dia_semana := 0,
    hora_inicio := 480, hora_fin := 1200, precio_por_bloque := 100,
    moneda := "COP", activo := 1 }

/-- A client-role principal. -/
def usuario7 : Usuario :=
  { usuario_id := 7, rol := "cliente" }

/-- A hold of `usuario7` on `cancha1`, day 0, 10:00-11:00, expiring at
instant 500. -/
def reservaHold1 : Reserva :=
  { id := 1, sede_id := 1, cancha_id := 1, usuario_id := some 7, fecha := 0,
    hora_inicio := 600, hora_fin := 660, estado := "hold",
    vence_hold := some (.valida 500), clave_idempotencia := some "clave-000001",
    total := some 100, moneda := some "COP", activo := 1 }

/-- The store with `sede1`, `cancha1`, `tarifa1` and no reservation. -/
def storeVacio : Store :=
  { reservas := [], sedes := [sede1], canchas := [cancha1], tarifas := [tarifa1],
    historial := [], nextId := 1 }

/-- `storeVacio` plus the pending hold `reservaHold1`. -/
def storeHold : Store :=
  { storeVacio with reservas := [reservaHold1], nextId := 2 }

/-- A confirmed reservation on `cancha1`, day 7 (weekday 0), 10:00-11:00. -/
def reservaConfirmada1 : Reserva :=
  { reservaHold1 with estado := "confirmed", vence_hold := none, fecha := 7 }

/-- `storeVacio` plus the confirmed reservation `reservaConfirmada1`. -/
def storeConfirmada : Store :=
  { storeVacio with reservas := [reservaConfirmada1], nextId := 2 }

/-- A cancel request without an idempotency key. -/
def cancelReq0 : ReservaCancelRequest :=
  { motivo := "cambio de planes", clave_idempotencia := none }

/-- A hold request for `cancha1`, day 0, 10:00-11:00. -/
def holdReq0 : ReservaHoldRequest :=
  { sede_id := 1, cancha_id := 1, fecha := 0, hora_inicio := 600, hora_fin := 660,
    clave_idempotencia := "clave-000001" }

/-- A reprogram request moving to day 7 (same weekday), 12:00-13:00. -/
def reprogramReq0 : ReservaReprogramarRequest :=
  { fecha := 7, hora_inicio := 720, hora_fin := 780, cancha_id := none }

/-- The response of the first `crear_hold` run in the C3 witness scenario. -/
def holdData0 : ReservaHoldData :=
  { reserva_id := 1, estado := "hold", sede_id := 1, cancha_id := 1, fecha := 0,
    hora_inicio := 600, hora_fin := 660, vence_hold := some (.valida 300),
    total := 100, moneda := "COP" }

/-- The store produced by that first run. -/
def storeTrasHold : Store := (crear_hold cfg0 290 holdReq0 usuario7 storeVacio).2

theorem hay_solape_symm (b a1 a2 c1 c2 : Int) :
    hay_solape b a1 a2 c1 c2 = hay_solape b c1 c2 a1 a2 := by
  unfold hay_solape
  have h1 : decide (a1 < c2 + b) = decide (c2 > a1 - b) :=
    decide_eq_decide.mpr (by omega)
  have h2 : decide (a2 > c1 - b) = decide (c1 < a2 + b) :=
    decide_eq_decide.mpr (by omega)
  rw [h1, h2, Bool.and_comm]

theorem validar_solape_ok {s : Store} {cancha fecha : Nat} {hi hf buffer : Int}
    {excl : Option Nat} (h : _validar_solape s cancha fecha hi hf buffer excl = .ok ()) :
    ∀ r ∈ s.reservas, r.cancha_id = cancha → r.fecha = fecha →
      reservaActiva r = true → excl ≠ some r.id →
      hay_solape buffer hi hf r.hora_inicio r.hora_fin = false := by
  intro r hr hc hfe hact hex
  by_contra hcon
  rw [Bool.not_eq_false] at hcon
  have hactparts := hact
  unfold reservaActiva at hactparts
  rw [Bool.and_eq_true] at hactparts
  have hmem : r ∈ s.reservas.filter (fun r =>
      decide (r.cancha_id = cancha) && decide (r.fecha = fecha) &&
      estadoActivo r.estado && decide (r.activo = 1)) := by
    rw [List.mem_filter]
    refine ⟨hr, ?_⟩
    simp only [Bool.and_eq_true, decide_eq_true_eq]
    exact ⟨⟨⟨hc, hfe⟩, hactparts.1⟩, of_decide_eq_true hactparts.2⟩
  have hany : (s.reservas.filter (fun r =>
      decide (r.cancha_id = cancha) && decide (r.fecha = fecha) &&
      estadoActivo r.estado && decide (r.activo = 1))).any (fun r =>
        !(decide (excl = some r.id)) &&
        hay_solape buffer hi hf r.hora_inicio r.hora_fin) = true := by
    rw [List.any_eq_true]
    refine ⟨r, hmem, ?_⟩
    rw [Bool.and_eq_true, Bool.not_eq_true', decide_eq_false_iff_not]
    exact ⟨hex, hcon⟩
  unfold _validar_solape at h
  rw [if_pos hany] at h
  exact Except.noConfusion h

theorem sinDoble_append {buf : Nat → Int} {l : List Reserva} {n : Reserva}
    (hinv : sinDobleLista buf l)
    (hfresh : ∀ r ∈ l, r.id ≠ n.id)
    (hnc : ∀ r ∈ l, r.cancha_id = n.cancha_id → r.fecha = n.fecha →
      reservaActiva r = true →
      hay_solape (buf n.cancha_id) n.hora_inicio n.hora_fin r.hora_inicio r.hora_fin = false) :
    sinDobleLista buf (l ++ [n]) := by
  intro r1 h1 r2 h2 hid hc hfe ha1 ha2
  rcases List.mem_append.mp h1 with h1' | h1' <;>
    rcases List.mem_append.mp h2 with h2' | h2'
  · exact hinv r1 h1' r2 h2' hid hc hfe ha1 ha2
  · have he2 : r2 = n := List.mem_singleton.mp h2'
    subst he2
    rw [hc, hay_solape_symm]
    exact hnc r1 h1' hc hfe ha1
  · have he1 : r1 = n := List.mem_singleton.mp h1'
    subst he1
    exact hnc r2 h2' hc.symm hfe.symm ha2
  · have he1 : r1 = n := List.mem_singleton.mp h1'
    have he2 : r2 = n := List.mem_singleton.mp h2'
    subst he1; subst he2
    exact absurd rfl hid

theorem sinDoble_map {buf : Nat → Int} {l : List Reserva} (g : Reserva → Reserva)
    (hg : ∀ r ∈ l, (g r).id = r.id ∧ (g r).cancha_id = r.cancha_id ∧
      (g r).fecha = r.fecha ∧ (g r).hora_inicio = r.hora_inicio ∧
      (g r).hora_fin = r.hora_fin ∧
      (reservaActiva (g r) = true → reservaActiva r = true))
    (hinv : sinDobleLista buf l) : sinDobleLista buf (l.map g) := by
  intro r1 h1 r2 h2 hid hc hfe ha1 ha2
  obtain ⟨a1, ha1', rfl⟩ := List.mem_map.mp h1
  obtain ⟨a2, ha2', rfl⟩ := List.mem_map.mp h2
  obtain ⟨g1id, g1c, g1f, g1hi, g1hf, g1act⟩ := hg a1 ha1'
  obtain ⟨g2id, g2c, g2f, g2hi, g2hf, g2act⟩ := hg a2 ha2'
  rw [g1id, g2id] at hid
  rw [g1c, g2c] at hc
  rw [g1f, g2f] at hfe
  rw [g1c, g1hi, g1hf, g2hi, g2hf]
  exact hinv a1 ha1' a2 ha2' hid hc hfe (g1act ha1) (g2act ha2)

theorem expirarLista_eq (now : Int) (l : List Reserva) :
    expirarLista now l = (l.map (expirarReserva now), l.countP (esHoldExpirable now)) := by
  induction l with
  | nil => rfl
  | cons r resto ih =>
    unfold expirarLista
    rw [ih]
    by_cases h : esHoldExpirable now r = true
    · simp [h, expirarReserva, List.countP_cons]
    · rw [Bool.not_eq_true] at h
      simp [h, expirarReserva, List.countP_cons]

theorem expirarReserva_no_expirable (now : Int) (r : Reserva) :
    esHoldExpirable now (expirarReserva now r) = false := by
  unfold expirarReserva
  by_cases h : esHoldExpirable now r = true
  · rw [if_pos h]
    unfold esHoldExpirable
    simp
  · rw [Bool.not_eq_true] at h
    rw [if_neg (by simp [h])]
    exact h

theorem expirarReserva_idem (now : Int) (r : Reserva) :
    expirarReserva now (expirarReserva now r) = expirarReserva now r := by
  rw [expirarReserva, expirarReserva_no_expirable]
  simp

/-- C9. Sweeper idempotence: one run of `expirar_holds_vencidos` rewrites every
active hold whose parseable `vence_hold` is in the past to state `expired` with
`activo = 0` and leaves every other row untouched; an immediately following run
reports zero expired and returns the identical store; running it `n + 1` times
in a row equals running it once. -/
theorem claim_C9_sweeper_idempotente (now : Int) (s : Store) :
    (expirar_holds_vencidos now s).2.reservas = s.reservas.map (expirarReserva now) ∧
    (expirar_holds_vencidos now ((expirar_holds_vencidos now s).2)).1.expiradas = 0 ∧
    (expirar_holds_vencidos now ((expirar_holds_vencidos now s).2)).2 =
      (expirar_holds_vencidos now s).2 ∧
    ∀ n : Nat, (fun st => (expirar_holds_vencidos now st).2)^[n + 1] s =
      (fun st => (expirar_holds_vencidos now st).2) s := by
  have hpost : ∀ st : Store, (expirar_holds_vencidos now st).2 =
      { st with reservas := st.reservas.map (expirarReserva now) } := by
    intro st
    unfold expirar_holds_vencidos
    rw [expirarLista_eq]
  have hcnt : ∀ st : Store, (expirar_holds_vencidos now st).1.expiradas =
      st.reservas.countP (esHoldExpirable now) := by
    intro st
    unfold expirar_holds_vencidos
    rw [expirarLista_eq]
  have hcount : ∀ l : List Reserva,
      (l.map (expirarReserva now)).countP (esHoldExpirable now) = 0 := by
    intro l
    rw [List.countP_eq_zero]
    intro a ha
    obtain ⟨b, _, rfl⟩ := List.mem_map.mp ha
    simp [expirarReserva_no_expirable]
  have hmapmap : ∀ l : List Reserva,
      (l.map (expirarReserva now)).map (expirarReserva now) = l.map (expirarReserva now) := by
    intro l
    rw [List.map_map]
    exact List.map_congr_left (fun a _ => expirarReserva_idem now a)
  have hstab : ∀ st : Store, (expirar_holds_vencidos now ((expirar_holds_vencidos now st).2)).2 =
      (expirar_holds_vencidos now st).2 := by
    intro st
    rw [hpost, hpost]
    simp only []
    rw [hmapmap]
  refine ⟨by rw [hpost], ?_, hstab s, ?_⟩
  · rw [hcnt, hpost]
    exact hcount s.reservas
  · intro n
    induction n with
    | zero => rfl
    | succ m ih =>
      rw [Function.iterate_succ_apply', ih]
      exact hstab s

/-- C10. The two state machines disagree: `ReservaFSM.validar_transicion`
rejects `hold → confirmed`, yet `confirmar_reserva` performs exactly that
transition on a live hold; moreover the FSM's terminal state is spelled
`expirada` while the sweeper writes `expired`, a string the FSM enum does not
even parse. -/
theorem claim_C10_dos_maquinas_de_estado :
    ReservaFSM.validar_transicion .hold .confirmed = false ∧
    (confirmar_reserva cfg0 400 1 { clave_idempotencia := none } usuario7 storeHold).1 =
      .ok { reserva_id := 1, estado := "confirmed", total := 100, moneda := "COP" } ∧
    storeHold.reservas.map Reserva.estado = ["hold"] ∧
    ((confirmar_reserva cfg0 400 1 { clave_idempotencia := none } usuario7
      storeHold).2.reservas.map Reserva.estado) = ["confirmed"] ∧
    EstadoReserva.fromString "expired" = none ∧
    EstadoReserva.expirada.value = "expirada" ∧
    ((expirar_holds_vencidos 1000 storeHold).2.reservas.map Reserva.estado) = ["expired"] := by
  decide

/-- C5. Confirming a reservation in state `hold` (or `pending`) whose
`vence_hold` parses to an instant strictly in the past fails with HTTP 410 /
`HOLD_EXPIRADO` and returns the store untouched: the reservation keeps its
state and every other field. -/
theorem claim_C5_confirmar_hold_expirado
    (cfg : Settings) (now : Int) (rid : Nat) (p : ReservaConfirmRequest)
    (u : Usuario) (s : Store) (r : Reserva) (sede : Sede) (t : Int)
    (hfind : findReserva s rid = some r)
    (hestado : r.estado = "hold" ∨ r.estado = "pending")
    (hown : propietarioProhibido r u = false)
    (hsede : findSede s r.sede_id = some sede)
    (hzona : sede.zona_valida = true)
    (hvence : r.vence_hold = some (.valida t))
    (hpast : t < now) :
    confirmar_reserva cfg now rid p u s = (.error .holdExpirado, s) ∧
    Err.holdExpirado.statusCode = 410 ∧
    Err.holdExpirado.codigo = "HOLD_EXPIRADO" := by
  refine ⟨?_, rfl, rfl⟩
  rcases hestado with h | h <;>
    simp [confirmar_reserva, hfind, hsede, hvence, h, hown, hzona, hpast]

theorem claim_C5_witness :
    findReserva storeHold 1 = some reservaHold1 ∧
    (reservaHold1.estado = "hold" ∨ reservaHold1.estado = "pending") ∧
    propietarioProhibido reservaHold1 usuario7 = false ∧
    findSede storeHold reservaHold1.sede_id = some sede1 ∧
    sede1.zona_valida = true ∧
    reservaHold1.vence_hold = some (.valida 500) ∧
    (500 : Int) < 550 ∧
    confirmar_reserva cfg0 550 1 { clave_idempotencia := none } usuario7 storeHold =
      (.error .holdExpirado, storeHold) := by
  refine ⟨by decide, by decide, by decide, by decide, by decide, by decide, by decide, ?_⟩
  exact (claim_C5_confirmar_hold_expirado cfg0 550 1 { clave_idempotencia := none }
    usuario7 storeHold reservaHold1 sede1 500 (by decide) (by decide) (by decide)
    (by decide) (by decide) (by decide) (by decide)).1

/-- C8. Cancelling a reservation whose start has not yet passed returns the
refund directive of the configured policy without touching any money field:
type `total` with the full stored total when the remaining hours reach the
threshold, otherwise `total × percentage / 100`, typed `parcial` when positive
and `sin_reembolso` when zero; the reservation itself transitions to
`cancelled`. -/
theorem claim_C8_cancelar_reembolso
    (cfg : Settings) (now : Int) (rid : Nat) (p : ReservaCancelRequest)
    (u : Usuario) (s : Store) (r : Reserva) (sede : Sede)
    (hfind : findReserva s rid = some r)
    (hestado : r.estado = "confirmed" ∨ r.estado = "hold" ∨ r.estado = "pending")
    (hsede : findSede s r.sede_id = some sede)
    (hzona : sede.zona_valida = true)
    (hfuturo : now < instante r.fecha r.hora_inicio) :
    cancelar_reserva cfg now rid p u s =
      (.ok { reserva_id := r.id, estado := "cancelled",
             reembolso_monto :=
               if ((instante r.fecha r.hora_inicio - now : Int) : ℚ) / 60 ≥
                   cfg.cancel_full_refund_hours
               then r.total.getD 0
               else r.total.getD 0 * (cfg.cancel_partial_percentage / 100),
             reembolso_moneda := r.moneda.getD "COP",
             reembolso_tipo :=
               if ((instante r.fecha r.hora_inicio - now : Int) : ℚ) / 60 ≥
                   cfg.cancel_full_refund_hours
               then "total"
               else if r.total.getD 0 * (cfg.cancel_partial_percentage / 100) > 0
                 then "parcial" else "sin_reembolso" },
       s.updateReserva r.id (aplicarCancelacion p)) ∧
    (aplicarCancelacion p r).estado = "cancelled" := by
  refine ⟨?_, rfl⟩
  have hno : ¬ (instante r.fecha r.hora_inicio ≤ now) := not_le.mpr hfuturo
  rcases hestado with h | h | h <;>
    simp [cancelar_reserva, hfind, hsede, hzona, h, hno, _respuesta_cancel,
      aplicarCancelacion] <;>
    split_ifs <;> simp_all

theorem claim_C8_witness :
    findReserva storeConfirmada 1 = some reservaConfirmada1 ∧
    (reservaConfirmada1.estado = "confirmed" ∨ reservaConfirmada1.estado = "hold" ∨
      reservaConfirmada1.estado = "pending") ∧
    findSede storeConfirmada reservaConfirmada1.sede_id = some sede1 ∧
    sede1.zona_valida = true ∧
    (10140 : Int) < instante reservaConfirmada1.fecha reservaConfirmada1.hora_inicio ∧
    cancelar_reserva cfg0 10140 1 cancelReq0 usuario7 storeConfirmada =
      (.ok { reserva_id := 1, estado := "cancelled", reembolso_monto := 50,
             reembolso_moneda := "COP", reembolso_tipo := "parcial" },
       storeConfirmada.updateReserva 1 (aplicarCancelacion cancelReq0)) := by
  refine ⟨by decide, by decide, by decide, by decide, by decide, ?_⟩
  have h := (claim_C8_cancelar_reembolso cfg0 10140 1 cancelReq0 usuario7
    storeConfirmada reservaConfirmada1 sede1 (by decide) (by decide) (by decide)
    (by decide) (by decide)).1
  rw [h]
  norm_num [instante, reservaConfirmada1, reservaHold1, cfg0]

/-- C4, counterexample. A concrete lifecycle transition that appends no history
entry: `confirmar_reserva` moves the reservation of `storeHold` from `hold` to
`confirmed` and the history table stays empty, refuting the claim that every
lifecycle transition appends exactly one `ReservationHistory` entry. -/
theorem claim_C4_counterexample :
    storeHold.historial = ([] : List ReservaHistorial) ∧
    storeHold.reservas.map Reserva.estado = ["hold"] ∧
    (confirmar_reserva cfg0 400 1 { clave_idempotencia := none } usuario7 storeHold).1 =
      .ok { reserva_id := 1, estado := "confirmed", total := 100, moneda := "COP" } ∧
    ((confirmar_reserva cfg0 400 1 { clave_idempotencia := none } usuario7
      storeHold).2.reservas.map Reserva.estado) = ["confirmed"] ∧
    (confirmar_reserva cfg0 400 1 { clave_idempotencia := none } usuario7
      storeHold).2.historial = ([] : List ReservaHistorial) := by
  decide

set_option maxHeartbeats 2000000 in
/-- C4, amended. Only `ReservaEstadoService.transicionar_estado` writes
history: on success it appends exactly one entry recording the prior state, the
new state and the acting user, and it preserves all existing entries; on
failure, and on every `ReservaService` lifecycle operation (hold creation,
confirm, cancel, reprogram, expiry), the history table is returned exactly as
it was — in particular no operation ever mutates or deletes an entry. -/
theorem claim_C4_historial_amended (s : Store) :
    (∀ rid en uid com d s',
       transicionar_estado rid en uid com s = (.ok d, s') →
       ∃ r ∈ s.reservas, r.id = rid ∧ d.estado_anterior = r.estado ∧
         s'.historial = s.historial ++
           [{ reserva_id := rid, estado_anterior := r.estado,
              estado_nuevo := en.value, usuario_id := uid, comentario := com }]) ∧
    (∀ rid en uid com e s',
       transicionar_estado rid en uid com s = (.error e, s') →
       s'.historial = s.historial) ∧
    (∀ cfg now p u res s', crear_hold cfg now p u s = (res, s') →
       s'.historial = s.historial) ∧
    (∀ cfg now rid p u res s', confirmar_reserva cfg now rid p u s = (res, s') →
       s'.historial = s.historial) ∧
    (∀ cfg now rid p u res s', cancelar_reserva cfg now rid p u s = (res, s') →
       s'.historial = s.historial) ∧
    (∀ now rid p u res s', reprogramar_reserva now rid p u s = (res, s') →
       s'.historial = s.historial) ∧
    (∀ now res s', expirar_holds_vencidos now s = (res, s') →
       s'.historial = s.historial) := by
  refine ⟨?_, ?_, ?_, ?_, ?_, ?_, ?_⟩
  · intro rid en uid com d s' heq
    unfold transicionar_estado at heq
    split at heq
    · simp at heq
    next reserva hfind =>
      split at heq
      · simp at heq
      next ea hparse =>
        split at heq
        · rw [Prod.mk.injEq] at heq
          obtain ⟨hd, hs⟩ := heq
          rw [Except.ok.injEq] at hd
          subst hd
          subst hs
          have hfind2 : s.reservas.find? (fun r => decide (r.id = rid)) = some reserva := hfind
          refine ⟨reserva, List.mem_of_find?_eq_some hfind2, ?_, rfl, rfl⟩
          have hp := List.find?_some hfind2
          simp only [decide_eq_true_eq] at hp
          exact hp
        · simp at heq
  · intro rid en uid com e s' heq
    unfold transicionar_estado at heq
    try simp only [] at heq
    repeat' split at heq
    all_goals (rw [Prod.mk.injEq] at heq; obtain ⟨hres, hs⟩ := heq; first | (subst hs; rfl) | simp_all)
  · intro cfg now p u res s' heq
    unfold crear_hold at heq
    try simp only [] at heq
    repeat' split at heq
    all_goals (rw [Prod.mk.injEq] at heq; obtain ⟨hres, hs⟩ := heq; first | (subst hs; rfl) | simp_all)
  · intro cfg now rid p u res s' heq
    unfold confirmar_reserva at heq
    try simp only [] at heq
    repeat' split at heq
    all_goals (rw [Prod.mk.injEq] at heq; obtain ⟨hres, hs⟩ := heq; first | (subst hs; rfl) | simp_all)
  · intro cfg now rid p u res s' heq
    unfold cancelar_reserva at heq
    try simp only [] at heq
    repeat' split at heq
    all_goals (rw [Prod.mk.injEq] at heq; obtain ⟨hres, hs⟩ := heq; first | (subst hs; rfl) | simp_all)
  · intro now rid p u res s' heq
    unfold reprogramar_reserva at heq
    try simp only [] at heq
    repeat' split at heq
    all_goals (rw [Prod.mk.injEq] at heq; obtain ⟨hres, hs⟩ := heq; first | (subst hs; rfl) | simp_all)
  · intro now res s' heq
    unfold expirar_holds_vencidos at heq
    rw [Prod.mk.injEq] at heq
    obtain ⟨-, hs⟩ := heq
    subst hs
    rfl

theorem claim_C4_witness :
    ∃ r ∈ storeHold.reservas, r.id = 1 ∧
      ({ reserva_id := 1, estado_anterior := "hold", estado_actual := "pending" } :
        TransicionData).estado_anterior = r.estado ∧
      (transicionar_estado 1 .pending 7 none storeHold).2.historial =
        storeHold.historial ++
          [{ reserva_id := 1, estado_anterior := r.estado,
             estado_nuevo := EstadoReserva.pending.value, usuario_id := 7,
             comentario := none }] :=
  (claim_C4_historial_amended storeHold).1 1 .pending 7 none
    { reserva_id := 1, estado_anterior := "hold", estado_actual := "pending" }
    (transicionar_estado 1 .pending 7 none storeHold).2 (by decide)

/-- C6. Tariff resolution order: with a court given, the first active
court-level rule of that weekday containing the slot's start instant wins with
origin `cancha`; otherwise the active venue-level rule containing the start
wins with origin `sede`; with neither, the call fails `SIN_TARIFA` (HTTP 404).
Containment is tested only at the start instant: the result is invariant under
any change of `hora_fin` that keeps the range valid. -/
theorem claim_C6_resolucion_tarifa
    (s : Store) (fecha : Nat) (hora_inicio hora_fin : Int) (sede_id cid : Nat)
    (sede : Sede) (cancha : Cancha)
    (hsede : findSedeActiva s sede_id = some sede)
    (hcancha : findCanchaActiva s cid = some cancha)
    (hmatch : cancha.sede_id = sede.id)
    (hzona : sede.zona_valida = true)
    (hrango : hora_inicio < hora_fin) :
    (∀ t, buscarTarifaCancha s.tarifas cid (fecha % 7) hora_inicio = some t →
       t.cancha_id = some cid ∧ t.hora_inicio ≤ hora_inicio ∧ hora_inicio < t.hora_fin ∧
       resolver_precio s fecha hora_inicio hora_fin sede_id (some cid) =
         .ok { origen := "cancha", tarifa_id := t.id, moneda := t.moneda,
               precio_por_bloque := t.precio_por_bloque }) ∧
    (buscarTarifaCancha s.tarifas cid (fecha % 7) hora_inicio = none →
       ∀ t, buscarTarifaSede s.tarifas sede_id (fecha % 7) hora_inicio = some t →
         t.cancha_id = none ∧ t.hora_inicio ≤ hora_inicio ∧ hora_inicio < t.hora_fin ∧
         resolver_precio s fecha hora_inicio hora_fin sede_id (some cid) =
           .ok { origen := "sede", tarifa_id := t.id, moneda := t.moneda,
                 precio_por_bloque := t.precio_por_bloque }) ∧
    (buscarTarifaCancha s.tarifas cid (fecha % 7) hora_inicio = none →
       buscarTarifaSede s.tarifas sede_id (fecha % 7) hora_inicio = none →
       resolver_precio s fecha hora_inicio hora_fin sede_id (some cid) =
         .error .sinTarifa ∧ Err.sinTarifa.statusCode = 404 ∧
         Err.sinTarifa.codigo = "SIN_TARIFA") ∧
    (∀ hf2, hora_inicio < hf2 →
       resolver_precio s fecha hora_inicio hf2 sede_id (some cid) =
         resolver_precio s fecha hora_inicio hora_fin sede_id (some cid)) := by
  have hno2 : ¬ (hora_fin ≤ hora_inicio) := not_le.mpr hrango
  refine ⟨?_, ?_, ?_, ?_⟩
  · intro t ht
    have ht2 : s.tarifas.find? (fun t =>
        decide (t.cancha_id = some cid) && decide (t.dia_semana = fecha % 7) &&
        decide (t.hora_inicio ≤ hora_inicio) && decide (t.hora_fin > hora_inicio) &&
        decide (t.activo = 1)) = some t := ht
    have hp := List.find?_some ht2
    simp only [Bool.and_eq_true, decide_eq_true_eq] at hp
    obtain ⟨⟨⟨⟨hc, -⟩, hle⟩, hgt⟩, -⟩ := hp
    refine ⟨hc, hle, hgt, ?_⟩
    simp [resolver_precio, hsede, hcancha, hmatch, resolverNucleo, hzona, hno2,
      obtener_tarifa_aplicable, ht, hc]
  · intro hnone t ht
    have ht2 : s.tarifas.find? (fun t =>
        decide (t.sede_id = sede_id) && decide (t.cancha_id = none) &&
        decide (t.dia_semana = fecha % 7) &&
        decide (t.hora_inicio ≤ hora_inicio) && decide (t.hora_fin > hora_inicio) &&
        decide (t.activo = 1)) = some t := ht
    have hp := List.find?_some ht2
    simp only [Bool.and_eq_true, decide_eq_true_eq] at hp
    obtain ⟨⟨⟨⟨⟨-, hc⟩, -⟩, hle⟩, hgt⟩, -⟩ := hp
    refine ⟨hc, hle, hgt, ?_⟩
    simp [resolver_precio, hsede, hcancha, hmatch, resolverNucleo, hzona, hno2,
      obtener_tarifa_aplicable, hnone, ht, hc]
  · intro hnone1 hnone2
    refine ⟨?_, rfl, rfl⟩
    simp [resolver_precio, hsede, hcancha, hmatch, resolverNucleo, hzona, hno2,
      obtener_tarifa_aplicable, hnone1, hnone2]
  · intro hf2 h2
    simp [resolver_precio, hsede, hcancha, hmatch, resolverNucleo, hzona, hno2,
      not_le.mpr h2]

theorem claim_C6_witness :
    (findSedeActiva storeVacio 1 = some sede1 ∧
     findCanchaActiva storeVacio 1 = some cancha1 ∧
     cancha1.sede_id = sede1.id ∧ sede1.zona_valida = true ∧ (600 : Int) < 660 ∧
     buscarTarifaCancha storeVacio.tarifas 1 (0 % 7) 600 = none) ∧
    (tarifa1.cancha_id = none ∧ tarifa1.hora_inicio ≤ 600 ∧ (600 : Int) < tarifa1.hora_fin ∧
     resolver_precio storeVacio 0 600 660 1 (some 1) =
       .ok { origen := "sede", tarifa_id := 1, moneda := "COP",
             precio_por_bloque := 100 }) :=
  ⟨⟨by decide, by decide, by decide, by decide, by decide, by decide⟩,
   (claim_C6_resolucion_tarifa storeVacio 0 600 660 1 1 sede1 cancha1 (by decide)
     (by decide) (by decide) (by decide) (by decide)).2.1 (by decide) tarifa1 (by decide)⟩

/-- Looking up a nonempty idempotency key in a table extended with a row
carrying that key, when the original table misses it, returns the new row. -/
theorem buscar_por_clave_append {s2 : Store} {l : List Reserva} {n : Reserva}
    {clave : String} (hne : clave ≠ "") (hl : s2.reservas = l ++ [n])
    (hnone : l.find? (fun r => decide (r.clave_idempotencia = some clave)) = none)
    (hn : n.clave_idempotencia = some clave) :
    _buscar_por_clave s2 clave = some n := by
  unfold _buscar_por_clave
  rw [if_neg hne, hl, List.find?_append, hnone]
  simp [hn]

/-- C3. Idempotent hold creation: after a `crear_hold` call that created a row
(second component `true`), any later `crear_hold` carrying the same
`clave_idempotencia` — whatever its other fields, clock or caller — returns the
very same response tagged `false` (already existed, not newly created), leaves
the store untouched, and exactly one row with that key is stored; the created
row's id is the response's `reserva_id`. -/
theorem claim_C3_idempotencia_hold
    (cfg cfg2 : Settings) (now now2 : Int) (p p2 : ReservaHoldRequest)
    (u u2 : Usuario) (s s1 : Store) (d : ReservaHoldData)
    (hclave : p.clave_idempotencia ≠ "")
    (hclave2 : p2.clave_idempotencia = p.clave_idempotencia)
    (h1 : crear_hold cfg now p u s = (.ok (d, true), s1)) :
    s1.reservas.countP
      (fun r => decide (r.clave_idempotencia = some p.clave_idempotencia)) = 1 ∧
    d.reserva_id = s.nextId ∧
    crear_hold cfg2 now2 p2 u2 s1 = (.ok (d, false), s1) := by
  unfold crear_hold at h1
  try simp only [] at h1
  repeat' split at h1
  all_goals (first | (simp at h1; done) | skip)
  rename_i xA hbuscar0 xB sede hsede0 xC cancha hcancha0 hensede hreservable
    hzona hhoras xD uD hhor xE uE hsolape xF tarifa htar hdup xG d0 hresp
  rw [Prod.mk.injEq] at h1
  obtain ⟨hd, hs⟩ := h1
  rw [Except.ok.injEq, Prod.mk.injEq] at hd
  obtain ⟨hd, -⟩ := hd
  subst hs
  subst hd
  rw [Bool.not_eq_true] at hdup
  have hbuscar : s.reservas.find?
      (fun r => decide (r.clave_idempotencia = some p.clave_idempotencia)) = none := by
    have hb := hbuscar0
    unfold _buscar_por_clave at hb
    rwa [if_neg hclave] at hb
  constructor
  · rw [List.countP_append, List.countP_eq_zero.mpr, Nat.zero_add]
    · simp [List.countP, List.countP.go]
    · intro a ha
      have := List.find?_eq_none.mp hbuscar a ha
      simpa using this
  constructor
  · unfold _respuesta at hresp
    split at hresp
    · simp at hresp
    next sede2 hsede2 =>
      split at hresp
      · simp at hresp
      · rw [Except.ok.injEq] at hresp
        rw [← hresp]
  · unfold crear_hold
    rw [hclave2]
    rw [buscar_por_clave_append hclave rfl hbuscar rfl]
    simp only [hresp]

theorem claim_C3_witness :
    (holdReq0.clave_idempotencia ≠ "" ∧
     crear_hold cfg0 290 holdReq0 usuario7 storeVacio =
       (.ok (holdData0, true), storeTrasHold)) ∧
    (storeTrasHold.reservas.countP
       (fun r => decide (r.clave_idempotencia = some holdReq0.clave_idempotencia)) = 1 ∧
     holdData0.reserva_id = storeVacio.nextId ∧
     crear_hold cfg0 500 holdReq0 usuario7 storeTrasHold =
       (.ok (holdData0, false), storeTrasHold)) :=
  ⟨⟨by decide, by decide⟩,
   claim_C3_idempotencia_hold cfg0 cfg0 290 500 holdReq0 holdReq0 usuario7 usuario7
     storeVacio storeTrasHold holdData0 (by decide) rfl (by decide)⟩

/-- C2. Reprogram never commits: every `reprogramar_reserva` run returns the
store exactly as it was and never a success — validation failures return
before any write, and a run that passes all validations dies inside the
transaction reading the unmapped `pago_capturado` attribute, whose rollback
undoes the writes to the original — so the promised success outcome of the
claim (original marked `reprogrammed`, one new linked `confirmed` row, both
committed together) is unreachable in the code. -/
theorem claim_C2_reprogramar_siempre_rollback
    (now : Int) (rid : Nat) (p : ReservaReprogramarRequest) (u : Usuario)
    (s : Store) (res : Except Err ReservaReprogramarData) (s' : Store)
    (heq : reprogramar_reserva now rid p u s = (res, s')) :
    s' = s ∧ ∀ d, res ≠ .ok d := by
  unfold reprogramar_reserva at heq
  try simp only [] at heq
  repeat' split at heq
  all_goals
    (rw [Prod.mk.injEq] at heq
     obtain ⟨hres, hs⟩ := heq
     subst hs
     subst hres
     exact ⟨rfl, fun d hd => Except.noConfusion hd⟩)

theorem claim_C2_witness :
    reprogramar_reserva 10140 1 reprogramReq0 usuario7 storeConfirmada =
      (.error .internalError, storeConfirmada) ∧
    (storeConfirmada = storeConfirmada ∧
     ∀ d, (.error .internalError : Except Err ReservaReprogramarData) ≠ .ok d) :=
  ⟨by decide,
   claim_C2_reprogramar_siempre_rollback 10140 1 reprogramReq0 usuario7
     storeConfirmada (.error .internalError) storeConfirmada (by decide)⟩

theorem slot_ocupado_iff (a b : Int) (rangos : List RangoOcupado) :
    (_slot_esta_ocupado a b rangos).1 = true ↔
      ∃ g ∈ rangos, a < g.fin ∧ b > g.inicio := by
  unfold _slot_esta_ocupado
  cases h : rangos.find? (fun g => decide (a < g.fin) && decide (b > g.inicio)) with
  | none =>
    simp only []
    constructor
    · intro hfalse
      simp at hfalse
    · rintro ⟨g, hg, h1, h2⟩
      have hng := List.find?_eq_none.mp h g hg
      simp [h1, h2] at hng
  | some g =>
    simp only []
    constructor
    · intro _
      refine ⟨g, List.mem_of_find?_eq_some h, ?_⟩
      have hp := List.find?_some h
      simpa using hp
    · intro _
      trivial

theorem generarSlotsDesde_closed (cierre dur : Int) (rangos : List RangoOcupado)
    (hdur : 0 < dur) :
    ∀ (k : Nat) (actual : Int), (cierre - actual).toNat = k →
      generarSlotsDesde cierre dur rangos actual =
        (List.range ((cierre - actual).toNat / dur.toNat)).map
          (fun i : Nat => slotEn dur rangos (actual + (i : Int) * dur)) := by
  intro k
  induction k using Nat.strong_induction_on with
  | _ k ih =>
    intro actual hk
    rw [generarSlotsDesde]
    split
    next h =>
      obtain ⟨h0, hle⟩ := h
      have hrec := ih ((cierre - (actual + dur)).toNat) (by omega) (actual + dur) rfl
      rw [hrec]
      have hn : (cierre - actual).toNat / dur.toNat =
          (cierre - (actual + dur)).toNat / dur.toNat + 1 := by
        have h1 : (cierre - actual).toNat = (cierre - (actual + dur)).toNat + dur.toNat := by
          omega
        rw [h1, Nat.add_div_right _ (by omega)]
      rw [hn, List.range_succ_eq_map, List.map_cons, List.map_map]
      have htail : ∀ i ∈ List.range ((cierre - (actual + dur)).toNat / dur.toNat),
          slotEn dur rangos (actual + dur + (i : Int) * dur) =
          ((fun i : Nat => slotEn dur rangos (actual + (i : Int) * dur)) ∘ Nat.succ) i := by
        intro i _
        simp only [Function.comp_apply]
        have harg : actual + dur + (i : Int) * dur =
            actual + ((Nat.succ i : Nat) : Int) * dur := by
          push_cast
          ring
        rw [harg]
      rw [List.map_congr_left htail]
      simp [slotEn]
    next h =>
      have hlt : (cierre - actual).toNat < dur.toNat := by omega
      rw [Nat.div_eq_of_lt hlt]
      rfl

/-- C7. Availability output: for an opening window `[apertura, cierre)` and a
positive slot duration, `_generar_slots` returns exactly
`floor((cierre − apertura) / dur)` consecutive non-overlapping slots of length
`dur` starting at opening (the trailing remainder is discarded), and a slot is
unreservable exactly when it intersects the buffer-extended, window-clamped
interval of some reservation of that court and date in state
`{hold, pending, confirmed}` with `activo = 1` (test:
`slotStart < occEnd AND slotEnd > occStart`). -/
theorem claim_C7_disponibilidad (s : Store) (cancha fecha : Nat)
    (apertura cierre buffer dur : Int) (hdur : 0 < dur) :
    (_generar_slots apertura cierre (_obtener_reservas_activas s cancha fecha)
      buffer dur).length = (cierre - apertura).toNat / dur.toNat ∧
    ∀ i (h : i < (_generar_slots apertura cierre
        (_obtener_reservas_activas s cancha fecha) buffer dur).length),
      ((_generar_slots apertura cierre (_obtener_reservas_activas s cancha fecha)
        buffer dur).get ⟨i, h⟩).hora_inicio = apertura + i * dur ∧
      ((_generar_slots apertura cierre (_obtener_reservas_activas s cancha fecha)
        buffer dur).get ⟨i, h⟩).hora_fin = apertura + i * dur + dur ∧
      (((_generar_slots apertura cierre (_obtener_reservas_activas s cancha fecha)
        buffer dur).get ⟨i, h⟩).reservable = false ↔
        ∃ r ∈ s.reservas, r.cancha_id = cancha ∧ r.fecha = fecha ∧
          estadoActivo r.estado = true ∧ r.activo = 1 ∧
          apertura + i * dur < min cierre (r.hora_fin + buffer) ∧
          apertura + i * dur + dur > max apertura (r.hora_inicio - buffer)) := by
  have hclosed := generarSlotsDesde_closed cierre dur
    (rangosOcupados apertura cierre buffer (_obtener_reservas_activas s cancha fecha))
    hdur ((cierre - apertura).toNat) apertura rfl
  have hlen : (_generar_slots apertura cierre
      (_obtener_reservas_activas s cancha fecha) buffer dur).length =
      (cierre - apertura).toNat / dur.toNat := by
    unfold _generar_slots
    rw [hclosed, List.length_map, List.length_range]
  refine ⟨hlen, ?_⟩
  intro i h
  have hget : (_generar_slots apertura cierre
      (_obtener_reservas_activas s cancha fecha) buffer dur).get ⟨i, h⟩ =
      slotEn dur (rangosOcupados apertura cierre buffer
        (_obtener_reservas_activas s cancha fecha)) (apertura + i * dur) := by
    have h2 : i < (cierre - apertura).toNat / dur.toNat := by
      rw [← hlen]; exact h
    unfold _generar_slots
    rw [List.get_eq_getElem]
    have : (_generar_slots apertura cierre
        (_obtener_reservas_activas s cancha fecha) buffer dur) =
        (List.range ((cierre - apertura).toNat / dur.toNat)).map
          (fun j : Nat => slotEn dur (rangosOcupados apertura cierre buffer
            (_obtener_reservas_activas s cancha fecha)) (apertura + (j : Int) * dur)) := by
      unfold _generar_slots
      exact hclosed
    simp only [_generar_slots] at this
    rw [List.getElem_of_eq this, List.getElem_map, List.getElem_range]
  rw [hget]
  refine ⟨rfl, rfl, ?_⟩
  have hres : (slotEn dur (rangosOcupados apertura cierre buffer
      (_obtener_reservas_activas s cancha fecha)) (apertura + i * dur)).reservable =
      !(_slot_esta_ocupado (apertura + i * dur) (apertura + i * dur + dur)
        (rangosOcupados apertura cierre buffer
          (_obtener_reservas_activas s cancha fecha))).1 := rfl
  rw [hres, Bool.not_eq_false', slot_ocupado_iff]
  constructor
  · rintro ⟨g, hg, h1, h2⟩
    obtain ⟨r, hr, rfl⟩ := List.mem_map.mp hg
    have hrf := List.mem_filter.mp hr
    obtain ⟨hrmem, hpred⟩ := hrf
    simp only [Bool.and_eq_true, decide_eq_true_eq] at hpred
    exact ⟨r, hrmem, hpred.1.1.1, hpred.1.1.2, hpred.1.2, hpred.2, h1, h2⟩
  · rintro ⟨r, hr, hc, hf, hact, hact1, h1, h2⟩
    refine ⟨rangoOcupadoDe apertura cierre buffer r, ?_, h1, h2⟩
    apply List.mem_map_of_mem
    unfold _obtener_reservas_activas
    rw [List.mem_filter]
    refine ⟨hr, ?_⟩
    simp only [Bool.and_eq_true, decide_eq_true_eq]
    exact ⟨⟨⟨hc, hf⟩, hact⟩, hact1⟩

theorem claim_C7_witness :
    ((0 : Int) < 60) ∧
    ((_generar_slots 480 1200 (_obtener_reservas_activas storeConfirmada 1 7)
        10 60).length = ((1200 : Int) - 480).toNat / (60 : Int).toNat ∧
     ∀ i (h : i < (_generar_slots 480 1200
         (_obtener_reservas_activas storeConfirmada 1 7) 10 60).length),
       ((_generar_slots 480 1200 (_obtener_reservas_activas storeConfirmada 1 7)
         10 60).get ⟨i, h⟩).hora_inicio = 480 + i * 60 ∧
       ((_generar_slots 480 1200 (_obtener_reservas_activas storeConfirmada 1 7)
         10 60).get ⟨i, h⟩).hora_fin = 480 + i * 60 + 60 ∧
       (((_generar_slots 480 1200 (_obtener_reservas_activas storeConfirmada 1 7)
         10 60).get ⟨i, h⟩).reservable = false ↔
         ∃ r ∈ storeConfirmada.reservas, r.cancha_id = 1 ∧ r.fecha = 7 ∧
           estadoActivo r.estado = true ∧ r.activo = 1 ∧
           480 + i * 60 < min 1200 (r.hora_fin + 10) ∧
           480 + i * 60 + 60 > max 480 (r.hora_inicio - 10))) :=
  ⟨by decide, claim_C7_disponibilidad storeConfirmada 1 7 480 1200 10 60 (by decide)⟩

set_option maxHeartbeats 4000000 in
/-- C1. No double-booking: on a well-formed store (unique and fresh primary
keys, venue buffers coherent with `buf`) satisfying the invariant — no two
distinct active reservations of the same court and date whose raw range and
buffer-extended range intersect — every lifecycle operation (`crear_hold`,
`confirmar_reserva`, `cancelar_reserva`, `reprogramar_reserva`,
`expirar_holds_vencidos`) returns a store that still satisfies it. -/
theorem claim_C1_sin_doble_reserva (buf : Nat → Int) (s : Store)
    (hfr : IdsFrescos s) (hun : IdsUnicos s) (hbc : BufCoherente buf s)
    (hinv : SinDobleReserva buf s) :
    (∀ cfg now p u res s', crear_hold cfg now p u s = (res, s') →
       SinDobleReserva buf s') ∧
    (∀ cfg now rid p u res s', confirmar_reserva cfg now rid p u s = (res, s') →
       SinDobleReserva buf s') ∧
    (∀ cfg now rid p u res s', cancelar_reserva cfg now rid p u s = (res, s') →
       SinDobleReserva buf s') ∧
    (∀ now rid p u res s', reprogramar_reserva now rid p u s = (res, s') →
       SinDobleReserva buf s') ∧
    (∀ now res s', expirar_holds_vencidos now s = (res, s') →
       SinDobleReserva buf s') := by
  refine ⟨?_, ?_, ?_, ?_, ?_⟩
  · intro cfg now p u res s' heq
    unfold crear_hold at heq
    try simp only [] at heq
    repeat' split at heq
    all_goals (rw [Prod.mk.injEq] at heq; obtain ⟨-, hs⟩ := heq; subst hs)
    all_goals (try (exact hinv))
    all_goals
      (rename Cancha => cancha
       rename Sede => sede
       have hsede : findSede s p.sede_id = some sede := by assumption
       have hcancha : findCancha s p.cancha_id = some cancha := by assumption
       have hcs : cancha.sede_id = sede.id := not_not.mp (by assumption)
       have hsol : _validar_solape s cancha.id p.fecha p.hora_inicio p.hora_fin
           sede.minutos_buffer none = Except.ok () := by assumption
       have hsede2 : s.sedes.find? (fun x => decide (x.id = p.sede_id)) = some sede := hsede
       have hcancha2 : s.canchas.find? (fun c => decide (c.id = p.cancha_id)) =
         some cancha := hcancha
       have hbuffer : sede.minutos_buffer = buf cancha.id :=
         hbc cancha (List.mem_of_find?_eq_some hcancha2) sede
           (List.mem_of_find?_eq_some hsede2) hcs.symm
       refine sinDoble_append hinv (fun r hr => Nat.ne_of_lt (hfr r hr)) ?_
       intro r hr hc hf hact
       have hsafe := validar_solape_ok hsol r hr hc hf hact (by simp)
       show hay_solape (buf cancha.id) p.hora_inicio p.hora_fin
         r.hora_inicio r.hora_fin = false
       rw [← hbuffer]
       exact hsafe)
  · intro cfg now rid p u res s' heq
    unfold confirmar_reserva at heq
    try simp only [] at heq
    repeat' split at heq
    all_goals (rw [Prod.mk.injEq] at heq; obtain ⟨-, hs⟩ := heq; subst hs)
    all_goals (try (exact hinv))
    all_goals
      (rename Reserva => reserva
       have hfind : findReserva s rid = some reserva := by assumption
       have hhp : ¬¬(reserva.estado = "hold" ∨ reserva.estado = "pending") := by assumption
       have hfind2 : s.reservas.find? (fun r => decide (r.id = rid)) = some reserva := hfind
       have hmem := List.mem_of_find?_eq_some hfind2
       refine sinDoble_map _ ?_ hinv
       intro r hr
       by_cases hid : r.id = reserva.id
       · rw [if_pos hid]
         refine ⟨rfl, rfl, rfl, rfl, rfl, ?_⟩
         intro hact
         have hre : r = reserva := hun r hr reserva hmem hid
         unfold reservaActiva at hact ⊢
         rw [Bool.and_eq_true] at hact ⊢
         refine ⟨?_, hact.2⟩
         rw [hre]
         rcases not_not.mp hhp with h | h <;> rw [h] <;> decide
       · rw [if_neg hid]
         exact ⟨rfl, rfl, rfl, rfl, rfl, fun h => h⟩)
  · intro cfg now rid p u res s' heq
    unfold cancelar_reserva at heq
    try simp only [] at heq
    repeat' split at heq
    all_goals (rw [Prod.mk.injEq] at heq; obtain ⟨-, hs⟩ := heq; subst hs)
    all_goals (try (exact hinv))
    all_goals
      (rename Reserva => reserva
       refine sinDoble_map _ ?_ hinv
       intro r hr
       by_cases hid : r.id = reserva.id
       · rw [if_pos hid]
         refine ⟨rfl, rfl, rfl, rfl, rfl, ?_⟩
         intro hact
         exfalso
         have hcanc : estadoActivo "cancelled" = false := by decide
         unfold reservaActiva at hact
         rw [show (aplicarCancelacion p r).estado = "cancelled" from rfl, hcanc] at hact
         simp at hact
       · rw [if_neg hid]
         exact ⟨rfl, rfl, rfl, rfl, rfl, fun h => h⟩)
  · intro now rid p u res s' heq
    unfold reprogramar_reserva at heq
    try simp only [] at heq
    repeat' split at heq
    all_goals (rw [Prod.mk.injEq] at heq; obtain ⟨-, hs⟩ := heq; subst hs; exact hinv)
  · intro now res s' heq
    unfold expirar_holds_vencidos at heq
    try simp only [] at heq
    rw [Prod.mk.injEq] at heq
    obtain ⟨-, hs⟩ := heq
    subst hs
    show sinDobleLista buf (expirarLista now s.reservas).1
    have hval : (expirarLista now s.reservas).1 = s.reservas.map (expirarReserva now) := by
      rw [expirarLista_eq]
    rw [hval]
    refine sinDoble_map _ ?_ hinv
    intro r hr
    unfold expirarReserva
    by_cases h : esHoldExpirable now r = true
    · rw [if_pos h]
      refine ⟨rfl, rfl, rfl, rfl, rfl, ?_⟩
      intro hact
      exfalso
      unfold reservaActiva at hact
      simp at hact
    · rw [if_neg h]
      exact ⟨rfl, rfl, rfl, rfl, rfl, fun hh => hh⟩

theorem claim_C1_witness :
    (IdsFrescos storeVacio ∧ IdsUnicos storeVacio ∧
     BufCoherente (fun _ => 10) storeVacio ∧
     SinDobleReserva (fun _ => 10) storeVacio) ∧
    ((∀ cfg now p u res s', crear_hold cfg now p u storeVacio = (res, s') →
        SinDobleReserva (fun _ => 10) s') ∧
     (∀ cfg now rid p u res s',
        confirmar_reserva cfg now rid p u storeVacio = (res, s') →
        SinDobleReserva (fun _ => 10) s') ∧
     (∀ cfg now rid p u res s',
        cancelar_reserva cfg now rid p u storeVacio = (res, s') →
        SinDobleReserva (fun _ => 10) s') ∧
     (∀ now rid p u res s',
        reprogramar_reserva now rid p u storeVacio = (res, s') →
        SinDobleReserva (fun _ => 10) s') ∧
     (∀ now res s', expirar_holds_vencidos now storeVacio = (res, s') →
        SinDobleReserva (fun _ => 10) s')) :=
  ⟨⟨by decide, by decide, by decide, by decide⟩,
   claim_C1_sin_doble_reserva (fun _ => 10) storeVacio (by decide) (by decide)
     (by decide) (by decide)⟩
